import Mathlib

/-!
# Member registry (`model/member.go`)

A shallow embedding of `model/member.go`: phone validation, member lookup by
phone or card number, referrer resolution and member creation.

* Go strings are Lean `String`s. `len` counts bytes and `String.length` characters; the
  file only compares `len` with zero, where the two agree.
* A Go `error` is `Option String` (`none` is `nil`, `some msg` an error value).
* The regular expression of `ValidatePhone` is a syntax tree interpreted by a
  backtracking matcher with the anchors `^` and `$` as zero-width assertions.
* Everything outside the file (the gorm handle, the card allocator, the uuid
  generator, the clock) is a parameter `Ext σ` over a state `σ`; every call to
  it is also appended to a trace of events.
-/

namespace Model

/-! ## Regular expressions (`regexp.MustCompile` / `MatchString`) -/

/-- Syntax of the fragment of Go regular expressions used by `regular`. -/
inductive Regexp where
  /-- start of text, written `^` -/
  | bol : Regexp
  /-- end of text, written `$`; without the multi-line flag only the very end matches -/
  | eol : Regexp
  /-- a literal character -/
  | lit (c : Char) : Regexp
  /-- a character class given by inclusive ranges, as in `[a-bc-d]` -/
  | cls (rs : List (Char × Char)) : Regexp
  /-- concatenation -/
  | cat (r s : Regexp) : Regexp
  /-- alternation, written `r|s` -/
  | alt (r s : Regexp) : Regexp
  /-- counted repetition, written `r` followed by the count in braces -/
  | rep (n : Nat) (r : Regexp) : Regexp

/-- Membership of a character in a class given by inclusive ranges. -/
def inClass (rs : List (Char × Char)) (c : Char) : Bool :=
  rs.any (fun r => decide (r.1 ≤ c) && decide (c ≤ r.2))

/-- A matcher position: the number of characters already consumed and the rest of the text. -/
abbrev Cursor := Nat × List Char

/-- Apply a matcher `n` times in sequence. -/
def iter (f : Cursor → List Cursor) : Nat → Cursor → List Cursor
  | 0, x => [x]
  | n + 1, x => (f x).flatMap (iter f n)

/-- All cursors reachable by matching `r` from a cursor. -/
def step : Regexp → Cursor → List Cursor
  | .bol => fun x => if x.1 = 0 then [x] else []
  | .eol => fun x => if x.2 = [] then [x] else []
  | .lit c => fun x =>
    match x.2 with
    | [] => []
    | d :: t => if d = c then [(x.1 + 1, t)] else []
  | .cls rs => fun x =>
    match x.2 with
    | [] => []
    | d :: t => if inClass rs d then [(x.1 + 1, t)] else []
  | .cat r s => fun x => (step r x).flatMap (step s)
  | .alt r s => fun x => step r x ++ step s x
  | .rep n r => fun x => iter (step r) n x

/-- Unanchored search as in `(*Regexp).MatchString`: the expression matches at some offset. -/
def MatchString (re : Regexp) (s : String) : Bool :=
  (List.range (s.length + 1)).any (fun i => !(step re (i, s.toList.drop i)).isEmpty)

/-- The class `\d`, which is `[0-9]`. -/
def digit : Regexp := .cls [('0', '9')]

/-- The constant `regular = "^(13[0-9]|14[57]|15[0-35-9]|18[07-9])\\d{8}$"`. -/
def regular : Regexp :=
  .cat .bol
    (.cat
      (.cat
        (.alt (.cat (.lit '1') (.cat (.lit '3') (.cls [('0', '9')])))
          (.alt (.cat (.lit '1') (.cat (.lit '4') (.cls [('5', '5'), ('7', '7')])))
            (.alt (.cat (.lit '1') (.cat (.lit '5') (.cls [('0', '3'), ('5', '9')])))
              (.cat (.lit '1') (.cat (.lit '8') (.cls [('0', '0'), ('7', '9')]))))))
        (.rep 8 digit))
      .eol)

/-- ValidatePhone 校验手机号格式 -/
def ValidatePhone (mobileNum : String) : Bool :=
  let reg := regular
  MatchString reg mobileNum

/-- The leading-digit classes of the claim: 13x, 145, 147, 15x (x ≠ 4), 180, 187, 188, 189. -/
def leadingClass (a b c : Char) : Prop :=
  a = '1' ∧ (b = '3' ∨ (b = '4' ∧ (c = '5' ∨ c = '7')) ∨ (b = '5' ∧ c ≠ '4') ∨
    (b = '8' ∧ (c = '0' ∨ c = '7' ∨ c = '8' ∨ c = '9')))

/-- The phone format of the claim: exactly 11 ASCII digits whose first three are in a leading class. -/
def PhoneFormat (s : String) : Prop :=
  s.length = 11 ∧ (∀ c ∈ s.toList, c.isDigit = true) ∧
    ∃ a b c t, s.toList = a :: b :: c :: t ∧ leadingClass a b c


/-! ## Go library values (`database/sql`, `strconv`) -/

/-- Go's `string`, under a name that stays usable next to the field `NullString.String`. -/
abbrev GoString := String

/-- The type `sql.NullString`. -/
structure NullString where
  String : GoString
  Valid : Bool
  deriving DecidableEq

/-- The method `(*NullString).Scan` applied to a Go string: the value is stored and marked valid. -/
def NullString.Scan (_ns : NullString) (value : GoString) : NullString :=
  { String := value, Valid := true }

/-- Width of Go's `int` on the target platform. -/
def intSize : Nat := 64

/-- Decimal value of a list of ASCII digits. -/
def digitsValue (ds : List Char) : Nat :=
  ds.foldl (fun n ch => n * 10 + (ch.toNat - '0'.toNat)) 0

/-- The function `strconv.Atoi`: an optional sign followed by one or more ASCII digits, with
the value in the range of `int`. Returns the value and the error (`none` for `nil`). -/
def Atoi (s : String) : Int × Option String :=
  match s.toList with
  | [] => (0, some "invalid syntax")
  | c :: cs =>
    let neg : Bool := c == '-'
    let ds : List Char := if c == '-' || c == '+' then cs else c :: cs
    if ds.isEmpty || !ds.all Char.isDigit then (0, some "invalid syntax")
    else
      let un : Nat := digitsValue ds
      let cutoff : Nat := 2 ^ (intSize - 1)
      if !neg && un ≥ cutoff then (Int.ofNat cutoff - 1, some "value out of range")
      else if neg && un > cutoff then (-Int.ofNat cutoff, some "value out of range")
      else (if neg then -Int.ofNat un else Int.ofNat un, none)

/-- The error value `sql.ErrNoRows`. -/
def ErrNoRows : Option String := some "sql: no rows in result set"

/-! ## Data model -/

/-- Member 数据库对象 -/
structure Member where
  ID : String
  CardNo : NullString
  Phone : NullString
  Level : NullString
  CreateTime : Nat
  Reference : NullString
  Name : NullString
  deriving DecidableEq

/-- NewMember 空Member: the zero value of the struct. -/
def NewMember : Member :=
  { ID := "", CardNo := ⟨"", false⟩, Phone := ⟨"", false⟩, Level := ⟨"", false⟩,
    CreateTime := 0, Reference := ⟨"", false⟩, Name := ⟨"", false⟩ }

/-- ResOK 返回码 -/
def ResOK : String := "200"
/-- ResInvalid 无效参数 -/
def ResInvalid : String := "412"
/-- ResPhoneInvalid 无效手机号 -/
def ResPhoneInvalid : String := "4121"
/-- ResNotFound 没有对应记录 -/
def ResNotFound : String := "404"
/-- ResFound 成功找到 -/
def ResFound : String := "200"
/-- ResWrongSQL 查询语句错误 -/
def ResWrongSQL : String := "500"
/-- ResFail 异常 -/
def ResFail : String := "500"
/-- ResFailCreateMember 创建用户异常 -/
def ResFailCreateMember : String := "501"

/-! ## The world outside the file -/

/-- What a gorm query leaves behind: the destination struct after the call, whether
`RecordNotFound()` holds, and the handle's `Error`. -/
structure QueryResult where
  value : Member
  RecordNotFound : Bool
  Error : Option String

/-- The collaborators the file calls but does not define, as functions of their state `σ`:
the gorm handle `db` (`First`, `Create`, `NewRecord`), the card allocator of the package
(`GetNewCard`, `UpdateNewCard`), `uuid.NewV4().String()` and `time.Now()`.
`First` receives the destination struct, the condition and its argument. `Create` does not
write to the struct it is given: the struct has no auto-generated column. -/
structure Ext (σ : Type) where
  First : σ → Member → String → String → QueryResult × σ
  Create : σ → Member → σ
  NewRecord : σ → Member → Bool × σ
  GetNewCard : σ → String × σ
  UpdateNewCard : σ → Int → σ
  NewV4 : σ → String × σ
  Now : σ → Nat × σ

/-- One observable action of the file on the outside world. -/
inductive Event where
  | First (cond arg : String) : Event
  | Create (value : Member) : Event
  | NewRecord (value : Member) : Event
  | GetNewCard : Event
  | UpdateNewCard (no : Int) : Event
  | NewV4 : Event
  | Now : Event
  | Println (line : String) : Event
  | LogPrintln (line : String) : Event
  | GoCreateLevels (m : Member) : Event
  deriving DecidableEq

/-- State of the collaborators together with the actions performed so far. -/
structure World (σ : Type) where
  ext : σ
  trace : List Event

/-- The call `db.First(&m, cond, arg)`. -/
def dbFirst {σ : Type} (E : Ext σ) (w : World σ) (m : Member) (cond arg : String) :
    QueryResult × World σ :=
  let r := E.First w.ext m cond arg
  (r.1, { ext := r.2, trace := w.trace ++ [Event.First cond arg] })

/-- The call `db.Create(m)`. -/
def dbCreate {σ : Type} (E : Ext σ) (w : World σ) (m : Member) : World σ :=
  { ext := E.Create w.ext m, trace := w.trace ++ [Event.Create m] }

/-- The call `db.NewRecord(m)`. -/
def dbNewRecord {σ : Type} (E : Ext σ) (w : World σ) (m : Member) : Bool × World σ :=
  let r := E.NewRecord w.ext m
  (r.1, { ext := r.2, trace := w.trace ++ [Event.NewRecord m] })

/-- The call `GetNewCard()`. -/
def callGetNewCard {σ : Type} (E : Ext σ) (w : World σ) : String × World σ :=
  let r := E.GetNewCard w.ext
  (r.1, { ext := r.2, trace := w.trace ++ [Event.GetNewCard] })

/-- The call `UpdateNewCard(no)`. -/
def callUpdateNewCard {σ : Type} (E : Ext σ) (w : World σ) (no : Int) : World σ :=
  { ext := E.UpdateNewCard w.ext no, trace := w.trace ++ [Event.UpdateNewCard no] }

/-- The call `uuid.NewV4().String()`. -/
def callNewV4 {σ : Type} (E : Ext σ) (w : World σ) : String × World σ :=
  let r := E.NewV4 w.ext
  (r.1, { ext := r.2, trace := w.trace ++ [Event.NewV4] })

/-- The call `time.Now()`. -/
def callNow {σ : Type} (E : Ext σ) (w : World σ) : Nat × World σ :=
  let r := E.Now w.ext
  (r.1, { ext := r.2, trace := w.trace ++ [Event.Now] })

/-- A line written by `fmt.Println`. -/
def callPrintln {σ : Type} (w : World σ) (line : String) : World σ :=
  { w with trace := w.trace ++ [Event.Println line] }

/-- A line written by `log.Println`. -/
def callLogPrintln {σ : Type} (w : World σ) (line : String) : World σ :=
  { w with trace := w.trace ++ [Event.LogPrintln line] }

/-- The statement `go CreateLevels(db, m)`: the goroutine is started and never joined. -/
def goCreateLevels {σ : Type} (w : World σ) (m : Member) : World σ :=
  { w with trace := w.trace ++ [Event.GoCreateLevels m] }

/-- How `fmt` prints an error operand. -/
def errText (err : Option String) : String :=
  match err with
  | none => "<nil>"
  | some msg => msg

/-- Result of a lookup method with receiver `m *Member`: the returned `(string, error)`,
the receiver after the call and the world after the call. -/
structure Ret (σ : Type) where
  code : String
  err : Option String
  m : Member
  w : World σ

/-! ## Lookups -/

/-- FindByPhone 按电话查找 -/
def FindByPhone {σ : Type} (E : Ext σ) (w : World σ) (m : Member) (phone : String) : Ret σ :=
  if !ValidatePhone phone then
    { code := ResPhoneInvalid, err := some "无效电话号码", m := m, w := w }
  else
    let db1 := dbFirst E w m "phone=?" phone
    if db1.1.RecordNotFound then
      { code := ResNotFound, err := ErrNoRows, m := db1.1.value, w := db1.2 }
    else if db1.1.Error ≠ none then
      { code := ResWrongSQL, err := db1.1.Error, m := db1.1.value, w := db1.2 }
    else
      { code := ResFound, err := none, m := db1.1.value, w := db1.2 }

/-- FindByCardno 按卡号查找 -/
def FindByCardno {σ : Type} (E : Ext σ) (w : World σ) (m : Member) (cardno : String) : Ret σ :=
  let db1 := dbFirst E w m "cardno=?" cardno
  if db1.1.RecordNotFound then
    { code := ResNotFound, err := ErrNoRows, m := db1.1.value, w := db1.2 }
  else if db1.1.Error ≠ none then
    { code := ResWrongSQL, err := db1.1.Error, m := db1.1.value, w := db1.2 }
  else
    { code := ResFound, err := none, m := db1.1.value, w := db1.2 }

/-- FindByPhoneOrCardno 按手机号查找, 找不到时,按卡号查找 -/
def FindByPhoneOrCardno {σ : Type} (E : Ext σ) (w : World σ) (m : Member)
    (phone cardno : String) : Ret σ :=
  if phone.length == 0 && cardno.length == 0 then
    { code := ResInvalid, err := some "请输入手机号或卡号", m := m, w := w }
  else if phone.length != 0 then
    let r := FindByPhone E w m phone
    if r.err ≠ none then
      { code := r.code, err := r.err, m := r.m, w := r.w }
    else
      { code := ResFound, err := none, m := r.m, w := r.w }
  else
    FindByCardno E w m cardno

/-- FindByInfo reference 满足 phone No.按phone算, 否则按卡号查询 -/
def FindByInfo {σ : Type} (E : Ext σ) (w : World σ) (m : Member) (reference : String) : Ret σ :=
  if reference.length == 0 then
    { code := ResInvalid, err := some "无引荐人卡号,或手机号", m := m, w := w }
  else if ValidatePhone reference then
    let r := FindByPhone E w m reference
    let w1 := callPrintln r.w ("ref: " ++ reference ++ " " ++ errText r.err ++ " " ++ r.code)
    if r.err ≠ none then
      { code := r.code, err := r.err, m := r.m, w := w1 }
    else
      { code := ResFound, err := none, m := r.m, w := w1 }
  else
    FindByCardno E w m reference

/-! ## Creation -/

/-- Result of `FillNewMember`: the returned `(*Member, error)`, which is the receiver after
the call and `nil`, and the world after the call. -/
structure FillRet (σ : Type) where
  m : Member
  err : Option String
  w : World σ

/-- FillNewMember 填充新member对象 -/
def FillNewMember {σ : Type} (E : Ext σ) (w : World σ) (m : Member)
    (phone cardno reference level name : String) : FillRet σ :=
  let id := callNewV4 E w
  let m1 : Member := { m with ID := id.1 }
  let m2 : Member := { m1 with Phone := m1.Phone.Scan phone }
  let card : String × World σ :=
    if cardno.length != 0 then
      let a := Atoi cardno
      if a.2 = none then (cardno, callUpdateNewCard E id.2 a.1) else (cardno, id.2)
    else
      callGetNewCard E id.2
  let m3 : Member := { m2 with CardNo := m2.CardNo.Scan card.1 }
  let m4 : Member :=
    if reference.length > 0 then { m3 with Reference := m3.Reference.Scan reference } else m3
  let m5 : Member :=
    if level.length != 0 then { m4 with Level := { String := level, Valid := true } } else m4
  let m6 : Member :=
    if name.length > 0 then { m5 with Name := m5.Name.Scan name } else m5
  let now := callNow E card.2
  { m := { m6 with CreateTime := now.1 }, err := none, w := now.2 }

/-- Result of `CreateMember`: the returned error, the receiver and the world after the call. -/
structure CreateRet (σ : Type) where
  err : Option String
  m : Member
  w : World σ

/-- CreateMember 简单创建用户 -/
def CreateMember {σ : Type} (E : Ext σ) (w : World σ) (m : Member)
    (phone cardno reference level name : String) : CreateRet σ :=
  let f := FillNewMember E w m phone cardno reference level name
  let w1 := dbCreate E f.w f.m
  let isNew := dbNewRecord E w1 f.m
  if isNew.1 then
    { err := some "用户创建失败", m := f.m, w := isNew.2 }
  else
    { err := none, m := f.m, w := goCreateLevels isNew.2 f.m }

/-- Result of `AddNewMember`: the returned `*Member` (`none` for `nil`) and the world after. -/
structure AddRet (σ : Type) where
  ret : Option Member
  w : World σ

/-- AddNewMember 查找推荐用户,添加新用户 -/
def AddNewMember {σ : Type} (E : Ext σ) (w : World σ)
    (phone cardno reference level name : String) : AddRet σ :=
  let ref := NewMember
  let found : Ret σ :=
    if reference.length > 0 then FindByInfo E w ref reference
    else { code := "", err := none, m := ref, w := w }
  let referenceID : String :=
    if reference.length > 0 then (if found.err = none then found.m.ID else "") else ""
  let c := CreateMember E found.w found.m phone cardno referenceID level name
  if c.err ≠ none then
    { ret := none,
      w := callLogPrintln c.w (errText c.err ++ " " ++ phone ++ " " ++ cardno) }
  else
    { ret := some c.m, w := c.w }

/-- Number of `go CreateLevels` dispatches in a trace. -/
def dispatchCount (t : List Event) : Nat :=
  (t.filter (fun e => match e with
    | Event.GoCreateLevels _ => true
    | _ => false)).length

/-- Number of gorm queries (`First`) in a trace. -/
def lookupCount (t : List Event) : Nat :=
  (t.filter (fun e => match e with
    | Event.First _ _ => true
    | _ => false)).length

/-- Whether, right after the write attempt of `CreateMember`, the store still reports the
filled record as new: the value of `db.NewRecord(m)` following `db.Create(m)`. -/
def storeReportsNew {σ : Type} (E : Ext σ) (w : World σ) (m : Member)
    (phone cardno reference level name : String) : Bool :=
  (E.NewRecord
    (E.Create (FillNewMember E w m phone cardno reference level name).w.ext
      (FillNewMember E w m phone cardno reference level name).m)
    (FillNewMember E w m phone cardno reference level name).m).1

/-! ## A concrete store, allocator, generator and clock -/

/-- Modelled from the spec: the state of the collaborators of §6 (MemberStore, CardAllocator,
identifier generator, clock), none of which is defined in `member.go`. The store is a list of
records in insertion order and may be read-only; the allocator is a counter; the identifier
generator hands out the listed identifiers in order. -/
structure Table where
  rows : List Member
  readOnly : Bool
  nextCard : Nat
  ids : List String
  clock : Nat

/-- The record with the least identifier among the given ones: what `ORDER BY id ASC LIMIT 1`
selects. -/
def firstByID (rs : List Member) : Option Member :=
  rs.foldl (fun acc r =>
    match acc with
    | none => some r
    | some a => if r.ID < a.ID then some r else some a) none

/-- Modelled from the spec: the collaborators of §6 over a `Table`, with the store behaving
as the gorm handle the file calls. `First` selects, among the records whose phone (or card
number) is set and equal to the argument, and whose identifier is that of the destination
when the destination already has one, the record with the least identifier; it reports
explicitly when none matches, leaving the destination as it was, and fails on any other
condition. `Create` appends the record unless the store is read-only, in which case the
write does not take effect. `NewRecord` is gorm's test: the record counts as new exactly
when its primary key `ID` is blank, whatever the store holds. `allocateNew` returns the
counter and advances it; `markUsed` moves the counter past the claimed number. -/
def tableExt : Ext Table :=
  { First := fun s out cond arg =>
      let keyOk : Member → Bool := fun r => out.ID == "" || r.ID == out.ID
      if cond = "phone=?" then
        match firstByID
          (s.rows.filter (fun r => keyOk r && (r.Phone.Valid && r.Phone.String == arg))) with
        | some r => ({ value := r, RecordNotFound := false, Error := none }, s)
        | none =>
          ({ value := out, RecordNotFound := true, Error := some "record not found" }, s)
      else if cond = "cardno=?" then
        match firstByID
          (s.rows.filter (fun r => keyOk r && (r.CardNo.Valid && r.CardNo.String == arg))) with
        | some r => ({ value := r, RecordNotFound := false, Error := none }, s)
        | none =>
          ({ value := out, RecordNotFound := true, Error := some "record not found" }, s)
      else
        ({ value := out, RecordNotFound := false, Error := some "invalid condition" }, s)
    Create := fun s m => if s.readOnly then s else { s with rows := s.rows ++ [m] }
    NewRecord := fun s m => (m.ID == "", s)
    GetNewCard := fun s => (toString s.nextCard, { s with nextCard := s.nextCard + 1 })
    UpdateNewCard := fun s no =>
      if s.nextCard ≤ no.toNat then { s with nextCard := no.toNat + 1 } else s
    NewV4 := fun s => (s.ids.headD "", { s with ids := s.ids.tail })
    Now := fun s => (s.clock, { s with clock := s.clock + 1 }) }

/-- A referrer keyed by phone. -/
def alice : Member :=
  { ID := "id-alice", CardNo := ⟨"", false⟩, Phone := ⟨"13800138000", true⟩,
    Level := ⟨"gold", true⟩, CreateTime := 1, Reference := ⟨"", false⟩,
    Name := ⟨"Alice", true⟩ }

/-- A referrer keyed by card number. -/
def bob : Member :=
  { ID := "id-bob", CardNo := ⟨"1001", true⟩, Phone := ⟨"", false⟩,
    Level := ⟨"silver", true⟩, CreateTime := 2, Reference := ⟨"", false⟩,
    Name := ⟨"Bob", true⟩ }

/-- A store holding the two referrers. -/
def sampleTable : Table :=
  { rows := [alice, bob], readOnly := false, nextCard := 1002, ids := ["id-new"], clock := 100 }

/-- The sample store before anything has been done to it. -/
def sampleWorld : World Table := { ext := sampleTable, trace := [] }

/-- The sample store with writes disabled: every `Create` on it fails to take effect. -/
def readOnlyWorld : World Table := { ext := { sampleTable with readOnly := true }, trace := [] }

/-! # Theorems -/

/-! ## Characters -/

theorem char_le_iff (c d : Char) : c ≤ d ↔ c.toNat ≤ d.toNat := Iff.rfl

theorem char_eq_iff (c d : Char) : c = d ↔ c.toNat = d.toNat := by
  constructor
  · intro h; rw [h]
  · intro h
    apply Char.ext
    apply UInt32.ext
    exact h

theorem isDigit_iff (c : Char) : c.isDigit = true ↔ 48 ≤ c.toNat ∧ c.toNat ≤ 57 := by
  unfold Char.isDigit
  simp only [Bool.and_eq_true, decide_eq_true_eq, ge_iff_le]
  exact Iff.rfl

theorem inClass_digit (c : Char) : inClass [('0', '9')] c = true ↔ c.isDigit = true := by
  simp only [inClass, List.any_cons, List.any_nil, Bool.or_false, Bool.and_eq_true,
    decide_eq_true_eq, char_le_iff, isDigit_iff]
  have h0 : '0'.toNat = 48 := rfl
  have h9 : '9'.toNat = 57 := rfl
  rw [h0, h9]

theorem inClass_57 (c : Char) :
    inClass [('5', '5'), ('7', '7')] c = true ↔ c = '5' ∨ c = '7' := by
  simp only [inClass, List.any_cons, List.any_nil, Bool.or_false, Bool.and_eq_true,
    Bool.or_eq_true, decide_eq_true_eq, char_le_iff, char_eq_iff]
  have h5 : '5'.toNat = 53 := rfl
  have h7 : '7'.toNat = 55 := rfl
  rw [h5, h7]
  omega

theorem inClass_not4 (c : Char) :
    inClass [('0', '3'), ('5', '9')] c = true ↔ c.isDigit = true ∧ c ≠ '4' := by
  simp only [inClass, List.any_cons, List.any_nil, Bool.or_false, Bool.and_eq_true,
    Bool.or_eq_true, decide_eq_true_eq, char_le_iff, char_eq_iff, isDigit_iff, ne_eq]
  have h0 : '0'.toNat = 48 := rfl
  have h3 : '3'.toNat = 51 := rfl
  have h4 : '4'.toNat = 52 := rfl
  have h5 : '5'.toNat = 53 := rfl
  have h9 : '9'.toNat = 57 := rfl
  rw [h0, h3, h4, h5, h9]
  omega

theorem inClass_0789 (c : Char) :
    inClass [('0', '0'), ('7', '9')] c = true ↔ c = '0' ∨ c = '7' ∨ c = '8' ∨ c = '9' := by
  simp only [inClass, List.any_cons, List.any_nil, Bool.or_false, Bool.and_eq_true,
    Bool.or_eq_true, decide_eq_true_eq, char_le_iff, char_eq_iff]
  have h0 : '0'.toNat = 48 := rfl
  have h7 : '7'.toNat = 55 := rfl
  have h8 : '8'.toNat = 56 := rfl
  have h9 : '9'.toNat = 57 := rfl
  rw [h0, h7, h8, h9]
  omega

/-! ## The matcher -/

theorem mem_step_lit (c : Char) (i : Nat) (cs : List Char) (y : Cursor) :
    y ∈ step (.lit c) (i, cs) ↔ ∃ t, cs = c :: t ∧ y = (i + 1, t) := by
  cases cs with
  | nil => simp [step]
  | cons d t =>
    by_cases h : d = c
    · subst h; simp [step]
    · have h2 : ¬ c = d := fun e => h e.symm
      simp [step, h, h2]

theorem mem_step_cls (rs : List (Char × Char)) (i : Nat) (cs : List Char) (y : Cursor) :
    y ∈ step (.cls rs) (i, cs) ↔ ∃ d t, cs = d :: t ∧ inClass rs d = true ∧ y = (i + 1, t) := by
  cases cs with
  | nil => simp [step]
  | cons d t =>
    by_cases h : inClass rs d = true
    · simp only [step, h, if_true, List.mem_singleton, List.cons.injEq]
      constructor
      · intro e; exact ⟨d, t, ⟨rfl, rfl⟩, h, e⟩
      · rintro ⟨d2, t2, ⟨e1, e2⟩, -, e3⟩
        rw [e2]; exact e3
    · simp only [step, h, List.cons.injEq]
      constructor
      · intro e; simp at e
      · rintro ⟨d2, t2, ⟨e1, e2⟩, e3, -⟩
        rw [← e1] at e3; exact absurd e3 h

theorem mem_step_cat (r s : Regexp) (x y : Cursor) :
    y ∈ step (.cat r s) x ↔ ∃ z, z ∈ step r x ∧ y ∈ step s z := by
  simp [step, List.mem_flatMap]

theorem mem_step_alt (r s : Regexp) (x y : Cursor) :
    y ∈ step (.alt r s) x ↔ y ∈ step r x ∨ y ∈ step s x := by
  simp [step]

theorem mem_step_eol (x y : Cursor) : y ∈ step .eol x ↔ x.2 = [] ∧ y = x := by
  by_cases h : x.2 = []
  · simp [step, h]
  · simp [step, h]

theorem mem_step_bol (x y : Cursor) : y ∈ step .bol x ↔ x.1 = 0 ∧ y = x := by
  by_cases h : x.1 = 0
  · simp [step, h]
  · simp [step, h]

theorem mem_iter_digit (n : Nat) : ∀ (i : Nat) (cs : List Char) (y : Cursor),
    y ∈ iter (step digit) n (i, cs) ↔
      ∃ ds t, cs = ds ++ t ∧ ds.length = n ∧ (∀ d ∈ ds, d.isDigit = true) ∧ y = (i + n, t) := by
  induction n with
  | zero =>
    intro i cs y
    simp only [iter, List.mem_singleton, Nat.add_zero]
    constructor
    · intro h; exact ⟨[], cs, rfl, rfl, by simp, h⟩
    · rintro ⟨ds, t, h1, h2, -, h4⟩
      have : ds = [] := List.length_eq_zero.mp h2
      subst this; simp at h1; subst h1; exact h4
  | succ n ih =>
    intro i cs y
    simp only [iter, List.mem_flatMap]
    constructor
    · rintro ⟨z, hz, hy⟩
      rw [digit, mem_step_cls] at hz
      obtain ⟨d, t, h1, h2, h3⟩ := hz
      subst h3
      rw [ih] at hy
      obtain ⟨ds, t2, e1, e2, e3, e4⟩ := hy
      refine ⟨d :: ds, t2, ?_, ?_, ?_, ?_⟩
      · rw [h1, e1]; rfl
      · simp [e2]
      · intro c hc
        rcases List.mem_cons.mp hc with h | h
        · rw [h]; exact (inClass_digit d).mp h2
        · exact e3 c h
      · rw [e4]; congr 1; omega
    · rintro ⟨ds, t, h1, h2, h3, h4⟩
      cases ds with
      | nil => simp at h2
      | cons d ds =>
        refine ⟨(i + 1, ds ++ t), ?_, ?_⟩
        · rw [digit, mem_step_cls]
          exact ⟨d, ds ++ t, by rw [h1]; rfl, (inClass_digit d).mpr (h3 d (by simp)), rfl⟩
        · rw [ih]
          refine ⟨ds, t, rfl, by simpa using h2, fun c hc => h3 c (by simp [hc]), ?_⟩
          rw [h4]; congr 1; omega

theorem step_rep (n : Nat) (r : Regexp) (x : Cursor) :
    step (.rep n r) x = iter (step r) n x := rfl

theorem mem_step_lead (a0 b0 : Char) (rs : List (Char × Char)) (i : Nat) (cs : List Char)
    (y : Cursor) :
    y ∈ step (.cat (.lit a0) (.cat (.lit b0) (.cls rs))) (i, cs) ↔
      ∃ c t, cs = a0 :: b0 :: c :: t ∧ inClass rs c = true ∧ y = (i + 3, t) := by
  simp only [mem_step_cat]
  constructor
  · rintro ⟨z, hz, w, hw, hy⟩
    rw [mem_step_lit] at hz
    obtain ⟨t1, e1, rfl⟩ := hz
    rw [mem_step_lit] at hw
    obtain ⟨t2, e2, rfl⟩ := hw
    rw [mem_step_cls] at hy
    obtain ⟨c, t, e3, hc, rfl⟩ := hy
    exact ⟨c, t, by rw [e1, e2, e3], hc, rfl⟩
  · rintro ⟨c, t, e, hc, rfl⟩
    refine ⟨(i + 1, b0 :: c :: t), ?_, (i + 1 + 1, c :: t), ?_, ?_⟩
    · rw [mem_step_lit]; exact ⟨_, e, rfl⟩
    · rw [mem_step_lit]; exact ⟨_, rfl, rfl⟩
    · rw [mem_step_cls]; exact ⟨c, t, rfl, hc, rfl⟩

theorem matchString_iff (re : Regexp) (s : String) :
    MatchString re s = true ↔
      ∃ i, i ≤ s.length ∧ ∃ y, y ∈ step re (i, s.toList.drop i) := by
  unfold MatchString
  simp only [List.any_eq_true, List.mem_range, Bool.not_eq_true', List.isEmpty_eq_false]
  constructor
  · rintro ⟨i, hi, h⟩
    obtain ⟨y, hy⟩ := List.exists_mem_of_ne_nil _ h
    exact ⟨i, by omega, y, hy⟩
  · rintro ⟨i, hi, y, hy⟩
    exact ⟨i, by omega, List.ne_nil_of_mem hy⟩

/-- The regex side of the phone format, read off the syntax tree of `regular`. -/
theorem validatePhone_iff_shape (s : String) :
    ValidatePhone s = true ↔
      ∃ c t, (s.toList = '1' :: '3' :: c :: t ∧ c.isDigit = true ∨
          s.toList = '1' :: '4' :: c :: t ∧ (c = '5' ∨ c = '7') ∨
          s.toList = '1' :: '5' :: c :: t ∧ (c.isDigit = true ∧ c ≠ '4') ∨
          s.toList = '1' :: '8' :: c :: t ∧ (c = '0' ∨ c = '7' ∨ c = '8' ∨ c = '9')) ∧
        t.length = 8 ∧ ∀ d ∈ t, d.isDigit = true := by
  unfold ValidatePhone
  simp only [matchString_iff, regular]
  constructor
  · rintro ⟨i, -, y, hy⟩
    rw [mem_step_cat] at hy
    obtain ⟨z, hz, hy⟩ := hy
    rw [mem_step_bol] at hz
    obtain ⟨hi, rfl⟩ := hz
    simp only at hi
    subst hi
    rw [List.drop_zero, mem_step_cat] at hy
    obtain ⟨z, hz, hy⟩ := hy
    rw [mem_step_eol] at hy
    obtain ⟨hend, -⟩ := hy
    rw [mem_step_cat] at hz
    obtain ⟨w, hw, hz⟩ := hz
    have key : ∀ t : List Char, w = (0 + 3, t) → t.length = 8 ∧ ∀ d ∈ t, d.isDigit = true := by
      intro t e
      subst e
      rw [step_rep, mem_iter_digit] at hz
      obtain ⟨ds, t2, e1, e2, e3, rfl⟩ := hz
      simp only at hend
      subst hend
      rw [List.append_nil] at e1
      subst e1
      exact ⟨e2, e3⟩
    simp only [mem_step_alt, mem_step_lead] at hw
    rcases hw with ⟨c, t, e, hc, hw⟩ | ⟨c, t, e, hc, hw⟩ | ⟨c, t, e, hc, hw⟩ | ⟨c, t, e, hc, hw⟩
    · exact ⟨c, t, Or.inl ⟨e, (inClass_digit c).mp hc⟩, key t hw⟩
    · exact ⟨c, t, Or.inr (Or.inl ⟨e, (inClass_57 c).mp hc⟩), key t hw⟩
    · exact ⟨c, t, Or.inr (Or.inr (Or.inl ⟨e, (inClass_not4 c).mp hc⟩)), key t hw⟩
    · exact ⟨c, t, Or.inr (Or.inr (Or.inr ⟨e, (inClass_0789 c).mp hc⟩)), key t hw⟩
  · rintro ⟨c, t, hlead, hlen, hdig⟩
    refine ⟨0, Nat.zero_le _, (0 + 3 + 8, []), ?_⟩
    rw [mem_step_cat]
    refine ⟨(0, s.toList), by rw [mem_step_bol]; exact ⟨rfl, rfl⟩, ?_⟩
    rw [mem_step_cat]
    refine ⟨(0 + 3 + 8, []), ?_, by rw [mem_step_eol]; exact ⟨rfl, rfl⟩⟩
    rw [mem_step_cat]
    refine ⟨(0 + 3, t), ?_, ?_⟩
    · simp only [mem_step_alt, mem_step_lead]
      rcases hlead with ⟨e, hc⟩ | ⟨e, hc⟩ | ⟨e, hc⟩ | ⟨e, hc⟩
      · exact Or.inl ⟨c, t, e, (inClass_digit c).mpr hc, rfl⟩
      · exact Or.inr (Or.inl ⟨c, t, e, (inClass_57 c).mpr hc, rfl⟩)
      · exact Or.inr (Or.inr (Or.inl ⟨c, t, e, (inClass_not4 c).mpr hc, rfl⟩))
      · exact Or.inr (Or.inr (Or.inr ⟨c, t, e, (inClass_0789 c).mpr hc, rfl⟩))
    · rw [step_rep, mem_iter_digit]
      exact ⟨t, [], by simp, hlen, hdig, rfl⟩

theorem string_length_toList (s : String) : s.toList.length = s.length := rfl

/-- **C1.** `ValidatePhone s` holds exactly when `s` is 11 ASCII digits whose first three
characters are 13x, 145, 147, 15x (x ≠ 4), 180, 187, 188 or 189. In particular
`"13800138000"` is accepted, `"1234567890"` and `""` are rejected, and an accepted number
with any extra text before or after it is rejected. -/
theorem ValidatePhone_spec :
    (∀ s : String, ValidatePhone s = true ↔ PhoneFormat s) ∧
    ValidatePhone "13800138000" = true ∧
    ValidatePhone "1234567890" = false ∧
    ValidatePhone "" = false ∧
    (∀ s pre suf : String, ValidatePhone s = true → 0 < pre.length + suf.length →
      ValidatePhone (pre ++ s ++ suf) = false) := by
  have main : ∀ s : String, ValidatePhone s = true ↔ PhoneFormat s := by
    intro s
    rw [validatePhone_iff_shape]
    unfold PhoneFormat leadingClass
    rw [← string_length_toList]
    have d1 : ('1' : Char).isDigit = true := by decide
    have d3 : ('3' : Char).isDigit = true := by decide
    have d4 : ('4' : Char).isDigit = true := by decide
    have d5 : ('5' : Char).isDigit = true := by decide
    have d7 : ('7' : Char).isDigit = true := by decide
    have d8 : ('8' : Char).isDigit = true := by decide
    have d9 : ('9' : Char).isDigit = true := by decide
    have d0 : ('0' : Char).isDigit = true := by decide
    constructor
    · rintro ⟨c, t, hlead, hlen, hdig⟩
      have hall : ∀ a b : Char, a.isDigit = true → b.isDigit = true → c.isDigit = true →
          ∀ x ∈ a :: b :: c :: t, x.isDigit = true := by
        intro a b ha hb hc x hx
        simp only [List.mem_cons] at hx
        rcases hx with rfl | rfl | rfl | hx
        · exact ha
        · exact hb
        · exact hc
        · exact hdig x hx
      rcases hlead with ⟨e, hc⟩ | ⟨e, hc⟩ | ⟨e, hc⟩ | ⟨e, hc⟩
      · rw [e]
        exact ⟨by simp [hlen], hall _ _ d1 d3 hc, '1', '3', c, t, rfl, rfl, Or.inl rfl⟩
      · rw [e]
        have hcd : c.isDigit = true := by rcases hc with rfl | rfl <;> assumption
        exact ⟨by simp [hlen], hall _ _ d1 d4 hcd, '1', '4', c, t, rfl, rfl,
          Or.inr (Or.inl ⟨rfl, hc⟩)⟩
      · rw [e]
        exact ⟨by simp [hlen], hall _ _ d1 d5 hc.1, '1', '5', c, t, rfl, rfl,
          Or.inr (Or.inr (Or.inl ⟨rfl, hc.2⟩))⟩
      · rw [e]
        have hcd : c.isDigit = true := by rcases hc with rfl | rfl | rfl | rfl <;> assumption
        exact ⟨by simp [hlen], hall _ _ d1 d8 hcd, '1', '8', c, t, rfl, rfl,
          Or.inr (Or.inr (Or.inr ⟨rfl, hc⟩))⟩
    · rintro ⟨hlen, hdig, a, b, c, t, e, ha, hb⟩
      rw [e] at hlen hdig
      have hc : c.isDigit = true := hdig c (by simp)
      have ht : ∀ d ∈ t, d.isDigit = true := fun d hd => hdig d (by simp [hd])
      have hl : t.length = 8 := by simpa using hlen
      subst ha
      refine ⟨c, t, ?_, hl, ht⟩
      rcases hb with rfl | ⟨rfl, h⟩ | ⟨rfl, h⟩ | ⟨rfl, h⟩
      · exact Or.inl ⟨e, hc⟩
      · exact Or.inr (Or.inl ⟨e, h⟩)
      · exact Or.inr (Or.inr (Or.inl ⟨e, hc, h⟩))
      · exact Or.inr (Or.inr (Or.inr ⟨e, h⟩))
  refine ⟨main, by decide, by decide, by decide, ?_⟩
  intro s pre suf hs hpos
  have h11 : s.length = 11 := ((main s).mp hs).1
  cases h : ValidatePhone (pre ++ s ++ suf) with
  | false => rfl
  | true =>
    have h2 : (pre ++ s ++ suf).length = 11 := ((main _).mp h).1
    rw [String.length_append, String.length_append] at h2
    omega

/-- Witness for C1: the sample number is accepted, and rejected once wrapped in a space and
a newline. -/
theorem ValidatePhone_spec_witness :
    ValidatePhone "13800138000" = true ∧
      ValidatePhone (" " ++ "13800138000" ++ "\n") = false :=
  ⟨ValidatePhone_spec.2.1,
    ValidatePhone_spec.2.2.2.2 "13800138000" " " "\n" (by decide) (by decide)⟩

/-! ## Lookups -/

theorem string_length_eq_zero (s : String) : s.length = 0 ↔ s = "" := by
  constructor
  · intro h
    have h2 : s.toList = [] := List.length_eq_zero.mp h
    exact String.ext h2
  · intro h; rw [h]; rfl

/-- C9. Whatever the store holds, `FindByPhoneOrCardno("", "")` returns `ResInvalid` with a
non-nil error, leaves the receiver as it was and touches nothing outside: the world after
the call, store state and trace of calls, is the world before it. -/
theorem FindByPhoneOrCardno_empty {σ : Type} (E : Ext σ) (w : World σ) (m : Member) :
    (FindByPhoneOrCardno E w m "" "").code = ResInvalid ∧
    (FindByPhoneOrCardno E w m "" "").err ≠ none ∧
    (FindByPhoneOrCardno E w m "" "").m = m ∧
    (FindByPhoneOrCardno E w m "" "").w = w ∧
    lookupCount (FindByPhoneOrCardno E w m "" "").w.trace = lookupCount w.trace := by
  have h : FindByPhoneOrCardno E w m "" "" =
      { code := ResInvalid, err := some "请输入手机号或卡号", m := m, w := w } := rfl
  rw [h]
  exact ⟨rfl, by simp, rfl, rfl, rfl⟩

theorem FindByPhone_invalid {σ : Type} (E : Ext σ) (w : World σ) (m : Member) (phone : String)
    (h : ValidatePhone phone = false) :
    FindByPhone E w m phone =
      { code := ResPhoneInvalid, err := some "无效电话号码", m := m, w := w } := by
  simp [FindByPhone, h]

/-- C8 (as stated) fails: `"1234567890"` is not a valid phone, and `FindByPhone` answers it
with a status other than `ResInvalid`. -/
theorem FindByPhone_invalid_not_ResInvalid :
    ValidatePhone "1234567890" = false ∧
      (FindByPhone tableExt sampleWorld NewMember "1234567890").code ≠ ResInvalid := by
  refine ⟨by decide, ?_⟩
  rw [FindByPhone_invalid _ _ _ _ (by decide)]
  decide

/-- C8 (amended). For every store and every phone that fails `ValidatePhone`, `FindByPhone`
fails with the status `ResPhoneInvalid` ("4121"), which is not the status `ResInvalid`
("412") that `FindByPhoneOrCardno` returns when neither phone nor card number is given,
together with a non-nil error; the receiver and the world are left as they were. -/
theorem FindByPhone_invalid_status {σ : Type} (E : Ext σ) (w : World σ) (m : Member)
    (phone : String) (h : ValidatePhone phone = false) :
    (FindByPhone E w m phone).code = ResPhoneInvalid ∧
    ResPhoneInvalid ≠ (FindByPhoneOrCardno E w m "" "").code ∧
    (FindByPhoneOrCardno E w m "" "").code = ResInvalid ∧
    (FindByPhone E w m phone).err ≠ none ∧
    (FindByPhone E w m phone).m = m ∧
    (FindByPhone E w m phone).w = w := by
  rw [FindByPhone_invalid E w m phone h]
  have h2 : (FindByPhoneOrCardno E w m "" "").code = ResInvalid := rfl
  rw [h2]
  exact ⟨rfl, by decide, rfl, by simp, rfl, rfl⟩

/-- Witness for C8 (amended), at the malformed phone `"1234567890"` on the sample store. -/
theorem FindByPhone_invalid_status_witness :
    ValidatePhone "1234567890" = false ∧
      (FindByPhone tableExt sampleWorld NewMember "1234567890").code = "4121" ∧
      (FindByPhoneOrCardno tableExt sampleWorld NewMember "" "").code = "412" :=
  ⟨by decide,
    (FindByPhone_invalid_status tableExt sampleWorld NewMember "1234567890" (by decide)).1,
    (FindByPhone_invalid_status tableExt sampleWorld NewMember "1234567890" (by decide)).2.2.1⟩

theorem FindByPhone_err_none_code {σ : Type} (E : Ext σ) (w : World σ) (m : Member)
    (phone : String) (h : (FindByPhone E w m phone).err = none) :
    (FindByPhone E w m phone).code = ResFound := by
  by_cases hv : ValidatePhone phone = true
  · by_cases hn : (dbFirst E w m "phone=?" phone).1.RecordNotFound = true
    · simp [FindByPhone, hv, hn, ErrNoRows] at h
    · by_cases he : (dbFirst E w m "phone=?" phone).1.Error = none
      · simp [FindByPhone, hv, hn, he]
      · simp [FindByPhone, hv, hn, he] at h
  · simp [FindByPhone, hv] at h

theorem FindByPhoneOrCardno_phone {σ : Type} (E : Ext σ) (w : World σ) (m : Member)
    (phone cardno : String) (h : phone ≠ "") :
    FindByPhoneOrCardno E w m phone cardno = FindByPhone E w m phone := by
  have hl : phone.length ≠ 0 := fun e => h ((string_length_eq_zero phone).mp e)
  have hb : (phone.length == 0 && cardno.length == 0) = false := by simp [hl]
  have hb2 : (phone.length != 0) = true := by simp [hl]
  unfold FindByPhoneOrCardno
  rw [hb, hb2]
  simp only [Bool.false_eq_true, if_false, if_true]
  by_cases he : (FindByPhone E w m phone).err = none
  · rw [if_neg (by simp [he]), ← FindByPhone_err_none_code E w m phone he, ← he]
  · rw [if_pos he]

/-- C2. For every store, every non-empty phone and every cardno, `FindByPhoneOrCardno`
returns exactly what `FindByPhone(phone)` returns (status, error, populated receiver and
world), so the outcome is the same for every other cardno. A malformed phone fails with
`ResPhoneInvalid` without touching the receiver or the store; a valid phone for which the
store reports no record fails with `ResNotFound`, the receiver being whatever the phone
query left, and the only query made is the one on the phone column: no record is ever
fetched by card number. -/
theorem FindByPhoneOrCardno_phone_precedence {σ : Type} (E : Ext σ) (w : World σ) (m : Member)
    (phone cardno : String) (h : phone ≠ "") :
    FindByPhoneOrCardno E w m phone cardno = FindByPhone E w m phone ∧
    (∀ other : String,
      FindByPhoneOrCardno E w m phone other = FindByPhoneOrCardno E w m phone cardno) ∧
    (ValidatePhone phone = false →
      (FindByPhoneOrCardno E w m phone cardno).code = ResPhoneInvalid ∧
      (FindByPhoneOrCardno E w m phone cardno).err ≠ none ∧
      (FindByPhoneOrCardno E w m phone cardno).m = m ∧
      (FindByPhoneOrCardno E w m phone cardno).w = w) ∧
    (ValidatePhone phone = true →
      (E.First w.ext m "phone=?" phone).1.RecordNotFound = true →
      (FindByPhoneOrCardno E w m phone cardno).code = ResNotFound ∧
      (FindByPhoneOrCardno E w m phone cardno).err ≠ none ∧
      (FindByPhoneOrCardno E w m phone cardno).m = (E.First w.ext m "phone=?" phone).1.value ∧
      (FindByPhoneOrCardno E w m phone cardno).w.trace =
        w.trace ++ [Event.First "phone=?" phone]) := by
  refine ⟨FindByPhoneOrCardno_phone E w m phone cardno h, ?_, ?_, ?_⟩
  · intro other
    rw [FindByPhoneOrCardno_phone E w m phone other h,
      FindByPhoneOrCardno_phone E w m phone cardno h]
  · intro hv
    rw [FindByPhoneOrCardno_phone E w m phone cardno h, FindByPhone_invalid E w m phone hv]
    exact ⟨rfl, by simp, rfl, rfl⟩
  · intro hv hn
    rw [FindByPhoneOrCardno_phone E w m phone cardno h]
    simp [FindByPhone, hv, hn, ErrNoRows, dbFirst]

/-- Witness for C2: the sample store holds a record with card number "1001" and none with
phone "13900139000"; the lookup reports not-found and the receiver stays empty. -/
theorem FindByPhoneOrCardno_phone_precedence_witness :
    ("13900139000" ≠ "" ∧ bob ∈ sampleTable.rows ∧ bob.CardNo = ⟨"1001", true⟩) ∧
    (FindByPhoneOrCardno tableExt sampleWorld NewMember "13900139000" "1001").code
      = ResNotFound ∧
    (FindByPhoneOrCardno tableExt sampleWorld NewMember "13900139000" "1001").m
      = NewMember :=
  ⟨⟨by decide, by decide, by decide⟩,
    ((FindByPhoneOrCardno_phone_precedence tableExt sampleWorld NewMember
      "13900139000" "1001" (by decide)).2.2.2 (by decide) (by decide)).1,
    ((FindByPhoneOrCardno_phone_precedence tableExt sampleWorld NewMember
      "13900139000" "1001" (by decide)).2.2.2 (by decide) (by decide)).2.2.1.trans
        (by decide)⟩

theorem FindByInfo_phone {σ : Type} (E : Ext σ) (w : World σ) (m : Member) (token : String)
    (hv : ValidatePhone token = true) :
    FindByInfo E w m token =
      { code := (FindByPhone E w m token).code, err := (FindByPhone E w m token).err,
        m := (FindByPhone E w m token).m,
        w := callPrintln (FindByPhone E w m token).w
          ("ref: " ++ token ++ " " ++ errText (FindByPhone E w m token).err ++ " " ++
            (FindByPhone E w m token).code) } := by
  have hne : token ≠ "" := by
    intro e; rw [e] at hv; exact absurd hv (by decide)
  have hl : token.length ≠ 0 := fun e => hne ((string_length_eq_zero token).mp e)
  have hb : (token.length == 0) = false := by simp [hl]
  unfold FindByInfo
  rw [hb, hv]
  simp only [Bool.false_eq_true, if_false, if_true]
  by_cases he : (FindByPhone E w m token).err = none
  · rw [if_neg (by simp [he]), FindByPhone_err_none_code E w m token he, he]
  · rw [if_pos he]

theorem FindByInfo_empty {σ : Type} (E : Ext σ) (w : World σ) (m : Member) :
    FindByInfo E w m "" =
      { code := ResInvalid, err := some "无引荐人卡号,或手机号", m := m, w := w } := rfl

theorem FindByInfo_cardno {σ : Type} (E : Ext σ) (w : World σ) (m : Member) (token : String)
    (hne : token ≠ "") (hv : ValidatePhone token = false) :
    FindByInfo E w m token = FindByCardno E w m token := by
  have hl : token.length ≠ 0 := fun e => hne ((string_length_eq_zero token).mp e)
  have hb : (token.length == 0) = false := by simp [hl]
  unfold FindByInfo
  rw [hb, hv]
  simp only [Bool.false_eq_true, if_false]

theorem FindByPhone_found {σ : Type} (E : Ext σ) (w : World σ) (m : Member) (phone : String)
    (hv : ValidatePhone phone = true)
    (hn : (E.First w.ext m "phone=?" phone).1.RecordNotFound = false)
    (he : (E.First w.ext m "phone=?" phone).1.Error = none) :
    FindByPhone E w m phone =
      { code := ResFound, err := none, m := (E.First w.ext m "phone=?" phone).1.value,
        w := (dbFirst E w m "phone=?" phone).2 } := by
  simp [FindByPhone, hv, dbFirst, hn, he]

theorem FindByCardno_found {σ : Type} (E : Ext σ) (w : World σ) (m : Member) (cardno : String)
    (hn : (E.First w.ext m "cardno=?" cardno).1.RecordNotFound = false)
    (he : (E.First w.ext m "cardno=?" cardno).1.Error = none) :
    FindByCardno E w m cardno =
      { code := ResFound, err := none, m := (E.First w.ext m "cardno=?" cardno).1.value,
        w := (dbFirst E w m "cardno=?" cardno).2 } := by
  simp [FindByCardno, dbFirst, hn, he]

/-- C3. For every store, `FindByInfo(token)` is routed by the token alone: the empty token
fails with `ResInvalid` and a non-nil error, leaving the receiver and the world as they
were; a token that passes `ValidatePhone` gives the status, error, receiver and store state
of `FindByPhone(token)` (the only further action is the line printed by `fmt.Println`); any
other non-empty token gives exactly the result of `FindByCardno(token)`. Hence a referrer
the store finds under the phone column for a phone token, and one it finds under the card
column for any other token, is the record the same function yields, with `ResFound`. -/
theorem FindByInfo_routing {σ : Type} (E : Ext σ) (w : World σ) (m : Member) (token : String) :
    (token = "" →
      (FindByInfo E w m token).code = ResInvalid ∧ (FindByInfo E w m token).err ≠ none ∧
      (FindByInfo E w m token).m = m ∧ (FindByInfo E w m token).w = w) ∧
    (ValidatePhone token = true →
      (FindByInfo E w m token).code = (FindByPhone E w m token).code ∧
      (FindByInfo E w m token).err = (FindByPhone E w m token).err ∧
      (FindByInfo E w m token).m = (FindByPhone E w m token).m ∧
      (FindByInfo E w m token).w.ext = (FindByPhone E w m token).w.ext ∧
      (FindByInfo E w m token).w.trace = (FindByPhone E w m token).w.trace ++
        [Event.Println ("ref: " ++ token ++ " " ++ errText (FindByPhone E w m token).err ++
          " " ++ (FindByPhone E w m token).code)]) ∧
    (token ≠ "" → ValidatePhone token = false →
      FindByInfo E w m token = FindByCardno E w m token) ∧
    (ValidatePhone token = true →
      (E.First w.ext m "phone=?" token).1.RecordNotFound = false →
      (E.First w.ext m "phone=?" token).1.Error = none →
      (FindByInfo E w m token).code = ResFound ∧ (FindByInfo E w m token).err = none ∧
      (FindByInfo E w m token).m = (E.First w.ext m "phone=?" token).1.value) ∧
    (token ≠ "" → ValidatePhone token = false →
      (E.First w.ext m "cardno=?" token).1.RecordNotFound = false →
      (E.First w.ext m "cardno=?" token).1.Error = none →
      (FindByInfo E w m token).code = ResFound ∧ (FindByInfo E w m token).err = none ∧
      (FindByInfo E w m token).m = (E.First w.ext m "cardno=?" token).1.value) := by
  refine ⟨?_, ?_, ?_, ?_, ?_⟩
  · intro h
    subst h
    rw [FindByInfo_empty]
    exact ⟨rfl, by simp, rfl, rfl⟩
  · intro hv
    rw [FindByInfo_phone E w m token hv]
    exact ⟨rfl, rfl, rfl, rfl, rfl⟩
  · intro hne hv
    exact FindByInfo_cardno E w m token hne hv
  · intro hv hn he
    rw [FindByInfo_phone E w m token hv, FindByPhone_found E w m token hv hn he]
    exact ⟨rfl, rfl, rfl⟩
  · intro hne hv hn he
    rw [FindByInfo_cardno E w m token hne hv, FindByCardno_found E w m token hn he]
    exact ⟨rfl, rfl, rfl⟩

/-- Witness for C3: in the sample store the referrer keyed by the phone "13800138000" and the
referrer keyed by the card number "1001" are each resolved to their own record. -/
theorem FindByInfo_routing_witness :
    (ValidatePhone "13800138000" = true ∧ "1001" ≠ "" ∧ ValidatePhone "1001" = false) ∧
    (FindByInfo tableExt sampleWorld NewMember "13800138000").m = alice ∧
    (FindByInfo tableExt sampleWorld NewMember "13800138000").err = none ∧
    FindByInfo tableExt sampleWorld NewMember "1001" =
      { code := ResFound, err := none, m := bob,
        w := { ext := sampleTable, trace := [Event.First "cardno=?" "1001"] } } :=
  ⟨⟨by decide, by decide, by decide⟩,
    ((FindByInfo_routing tableExt sampleWorld NewMember "13800138000").2.1
      (by decide)).2.2.1.trans (by decide),
    ((FindByInfo_routing tableExt sampleWorld NewMember "13800138000").2.1
      (by decide)).2.1.trans (by decide),
    ((FindByInfo_routing tableExt sampleWorld NewMember "1001").2.2.1
      (by decide) (by decide)).trans rfl⟩

/-! ## Creation -/

theorem Atoi_empty : (Atoi "").2 ≠ none := by decide

theorem length_ne_zero_of_ne_empty (s : String) (h : s ≠ "") : (s.length != 0) = true := by
  have hl : s.length ≠ 0 := fun e => h ((string_length_eq_zero s).mp e)
  simp [hl]

theorem FillNewMember_CardNo {σ : Type} (E : Ext σ) (w : World σ) (m : Member)
    (phone cardno reference level name : String) :
    (FillNewMember E w m phone cardno reference level name).m.CardNo =
      ⟨(if cardno.length != 0 then cardno else (E.GetNewCard (E.NewV4 w.ext).2).1), true⟩ := by
  unfold FillNewMember
  by_cases hc : (cardno.length != 0) = true
  · by_cases ha : (Atoi cardno).2 = none <;>
      by_cases h1 : reference.length > 0 <;> by_cases h2 : (level.length != 0) = true <;>
      by_cases h3 : name.length > 0 <;>
      simp [hc, ha, h1, h2, h3, NullString.Scan]
  · by_cases h1 : reference.length > 0 <;> by_cases h2 : (level.length != 0) = true <;>
      by_cases h3 : name.length > 0 <;>
      simp [hc, h1, h2, h3, NullString.Scan, callGetNewCard, callNewV4]

theorem FillNewMember_world {σ : Type} (E : Ext σ) (w : World σ) (m : Member)
    (phone cardno reference level name : String) :
    (FillNewMember E w m phone cardno reference level name).w =
      (callNow E
        (if cardno.length != 0 then
          (if (Atoi cardno).2 = none then callUpdateNewCard E (callNewV4 E w).2 (Atoi cardno).1
           else (callNewV4 E w).2)
         else (callGetNewCard E (callNewV4 E w).2).2)).2 := by
  unfold FillNewMember
  by_cases hc : (cardno.length != 0) = true
  · by_cases ha : (Atoi cardno).2 = none <;> simp [hc, ha]
  · simp [hc]

/-- C7. For every cardno that `strconv.Atoi` parses as a non-negative integer `n`,
`FillNewMember` calls `UpdateNewCard(n)` exactly once and never `GetNewCard` (its calls to
the outside are, in order, the uuid generator, `UpdateNewCard(n)` and the clock), and the
stored `CardNo` is the supplied string verbatim. The sign of `n` plays no part: the same
holds for a cardno that parses as a negative integer. -/
theorem FillNewMember_numeric_cardno {σ : Type} (E : Ext σ) (w : World σ) (m : Member)
    (phone cardno reference level name : String) (n : Int)
    (hp : Atoi cardno = (n, none)) (_hn : 0 ≤ n) :
    (FillNewMember E w m phone cardno reference level name).w.trace =
      w.trace ++ [Event.NewV4, Event.UpdateNewCard n, Event.Now] ∧
    (FillNewMember E w m phone cardno reference level name).w.ext =
      (E.Now (E.UpdateNewCard (E.NewV4 w.ext).2 n)).2 ∧
    (FillNewMember E w m phone cardno reference level name).m.CardNo = ⟨cardno, true⟩ := by
  have hne : cardno ≠ "" := by
    intro e
    rw [e] at hp
    exact Atoi_empty (by rw [hp])
  have hc := length_ne_zero_of_ne_empty cardno hne
  have ha : (Atoi cardno).2 = none := by rw [hp]
  have h1 : (Atoi cardno).1 = n := by rw [hp]
  rw [FillNewMember_world, FillNewMember_CardNo, hc, if_pos rfl, if_pos ha, if_pos rfl, h1]
  refine ⟨?_, rfl, rfl⟩
  simp [callNow, callUpdateNewCard, callNewV4]

/-- Witness for C7 at the card number "1001" on the sample store. -/
theorem FillNewMember_numeric_cardno_witness :
    (Atoi "1001" = (1001, none) ∧ (0 : Int) ≤ 1001) ∧
    (FillNewMember tableExt sampleWorld NewMember "13900139000" "1001" "" "" "").w.trace =
      [Event.NewV4, Event.UpdateNewCard 1001, Event.Now] ∧
    (FillNewMember tableExt sampleWorld NewMember "13900139000" "1001" "" "" "").m.CardNo =
      ⟨"1001", true⟩ :=
  ⟨⟨by decide, by decide⟩,
    (FillNewMember_numeric_cardno tableExt sampleWorld NewMember "13900139000" "1001" "" "" ""
      1001 (by decide) (by decide)).1,
    (FillNewMember_numeric_cardno tableExt sampleWorld NewMember "13900139000" "1001" "" "" ""
      1001 (by decide) (by decide)).2.2⟩

/-- C4 (as stated) fails: "abc" is non-empty and does not parse as an integer, yet
`FillNewMember` never calls `GetNewCard` and stores the text "abc" itself as `CardNo`. -/
theorem FillNewMember_nonnumeric_cardno_kept :
    "abc" ≠ "" ∧ (Atoi "abc").2 ≠ none ∧
    Event.GetNewCard ∉
      (FillNewMember tableExt sampleWorld NewMember "13900139000" "abc" "" "" "").w.trace ∧
    (FillNewMember tableExt sampleWorld NewMember "13900139000" "abc" "" "" "").m.CardNo =
      ⟨"abc", true⟩ := by
  decide

/-- C4 (amended). For the empty cardno, `FillNewMember` requests a freshly allocated card
number from `GetNewCard` and the stored `CardNo` is that number. For a non-empty cardno
that does not parse as an integer, the allocator is not called at all (neither `GetNewCard`
nor `UpdateNewCard`) and the stored `CardNo` is the supplied text verbatim. -/
theorem FillNewMember_cardno_allocation {σ : Type} (E : Ext σ) (w : World σ) (m : Member)
    (phone cardno reference level name : String) :
    (cardno = "" →
      (FillNewMember E w m phone cardno reference level name).w.trace =
        w.trace ++ [Event.NewV4, Event.GetNewCard, Event.Now] ∧
      (FillNewMember E w m phone cardno reference level name).m.CardNo =
        ⟨(E.GetNewCard (E.NewV4 w.ext).2).1, true⟩) ∧
    (cardno ≠ "" → (Atoi cardno).2 ≠ none →
      (FillNewMember E w m phone cardno reference level name).w.trace =
        w.trace ++ [Event.NewV4, Event.Now] ∧
      (FillNewMember E w m phone cardno reference level name).m.CardNo = ⟨cardno, true⟩) := by
  constructor
  · intro h
    subst h
    have hc : ("".length != 0) = false := by decide
    rw [FillNewMember_world, FillNewMember_CardNo, hc]
    simp [callNow, callGetNewCard, callNewV4]
  · intro hne ha
    have hc := length_ne_zero_of_ne_empty cardno hne
    rw [FillNewMember_world, FillNewMember_CardNo, hc, if_pos rfl, if_neg ha, if_pos rfl]
    simp [callNow, callNewV4]

/-- Witness for C4 (amended): the empty cardno gets the allocator's number "1002", the text
"12a" is stored as it is. -/
theorem FillNewMember_cardno_allocation_witness :
    ("12a" ≠ "" ∧ (Atoi "12a").2 ≠ none) ∧
    (FillNewMember tableExt sampleWorld NewMember "13900139000" "" "" "" "").m.CardNo =
      ⟨"1002", true⟩ ∧
    (FillNewMember tableExt sampleWorld NewMember "13900139000" "12a" "" "" "").m.CardNo =
      ⟨"12a", true⟩ :=
  ⟨⟨by decide, by decide⟩,
    ((FillNewMember_cardno_allocation tableExt sampleWorld NewMember
      "13900139000" "" "" "" "").1 rfl).2.trans (by decide),
    ((FillNewMember_cardno_allocation tableExt sampleWorld NewMember
      "13900139000" "12a" "" "" "").2 (by decide) (by decide)).2⟩

theorem dispatchCount_append (a b : List Event) :
    dispatchCount (a ++ b) = dispatchCount a + dispatchCount b := by
  simp [dispatchCount, List.filter_append]

theorem dispatchCount_FillNewMember {σ : Type} (E : Ext σ) (w : World σ) (m : Member)
    (phone cardno reference level name : String) :
    dispatchCount (FillNewMember E w m phone cardno reference level name).w.trace =
      dispatchCount w.trace := by
  rw [FillNewMember_world]
  by_cases hc : (cardno.length != 0) = true
  · by_cases ha : (Atoi cardno).2 = none
    · rw [hc, if_pos rfl, if_pos ha]
      simp [callNow, callUpdateNewCard, callNewV4, dispatchCount_append, dispatchCount]
    · rw [hc, if_pos rfl, if_neg ha]
      simp [callNow, callNewV4, dispatchCount_append, dispatchCount]
  · rw [if_neg hc]
    simp [callNow, callGetNewCard, callNewV4, dispatchCount_append, dispatchCount]

theorem CreateMember_persisted {σ : Type} (E : Ext σ) (w : World σ) (m : Member)
    (phone cardno reference level name : String)
    (h : storeReportsNew E w m phone cardno reference level name = false) :
    CreateMember E w m phone cardno reference level name =
      { err := none,
        m := (FillNewMember E w m phone cardno reference level name).m,
        w := goCreateLevels (dbNewRecord E
          (dbCreate E (FillNewMember E w m phone cardno reference level name).w
            (FillNewMember E w m phone cardno reference level name).m)
          (FillNewMember E w m phone cardno reference level name).m).2
          (FillNewMember E w m phone cardno reference level name).m } := by
  unfold storeReportsNew at h
  unfold CreateMember
  simp [dbNewRecord, dbCreate, h]

theorem CreateMember_persisted_trace {σ : Type} (E : Ext σ) (w : World σ) (m : Member)
    (phone cardno reference level name : String)
    (h : storeReportsNew E w m phone cardno reference level name = false) :
    (CreateMember E w m phone cardno reference level name).w.trace =
      (FillNewMember E w m phone cardno reference level name).w.trace ++
        [Event.Create (FillNewMember E w m phone cardno reference level name).m,
         Event.NewRecord (FillNewMember E w m phone cardno reference level name).m,
         Event.GoCreateLevels (FillNewMember E w m phone cardno reference level name).m] := by
  rw [CreateMember_persisted E w m _ _ _ _ _ h]
  simp [dbNewRecord, dbCreate, goCreateLevels]

theorem FillNewMember_ID {σ : Type} (E : Ext σ) (w : World σ) (m : Member)
    (phone cardno reference level name : String) :
    (FillNewMember E w m phone cardno reference level name).m.ID = (E.NewV4 w.ext).1 := by
  unfold FillNewMember
  by_cases h1 : reference.length > 0 <;> by_cases h2 : (level.length != 0) = true <;>
    by_cases h3 : name.length > 0 <;>
    simp [h1, h2, h3, callNewV4]

/-- On a store whose `NewRecord` is gorm's blank-primary-key test, and with a generator that
yields a non-empty identifier, `CreateMember` never returns an error and always dispatches
`CreateLevels` once, whatever `Create` did: the branch returning "用户创建失败" is never
taken. -/
theorem CreateMember_blank_key_test {σ : Type} (E : Ext σ) (w : World σ) (m : Member)
    (phone cardno reference level name : String)
    (hnew : ∀ (s : σ) (x : Member), (E.NewRecord s x).1 = (x.ID == ""))
    (hid : (E.NewV4 w.ext).1 ≠ "") :
    (CreateMember E w m phone cardno reference level name).err = none ∧
    dispatchCount (CreateMember E w m phone cardno reference level name).w.trace =
      dispatchCount w.trace + 1 := by
  have hs : storeReportsNew E w m phone cardno reference level name = false := by
    unfold storeReportsNew
    rw [hnew, FillNewMember_ID]
    simp [hid]
  refine ⟨by rw [CreateMember_persisted E w m _ _ _ _ _ hs], ?_⟩
  rw [CreateMember_persisted_trace E w m _ _ _ _ _ hs, dispatchCount_append,
    dispatchCount_FillNewMember]
  simp [dispatchCount]

/-- C10 at a failing input. On the read-only sample store the write of `CreateMember` does not
take effect: the store holds the same two records after the call as before it and none with
the new identifier. `CreateMember` nevertheless returns a nil error and dispatches
`go CreateLevels` once, and `AddNewMember` returns the unpersisted member instead of nil:
`db.NewRecord` sees the identifier `FillNewMember` has just set and answers false. -/
theorem CreateMember_failed_write_unreported :
    (CreateMember tableExt readOnlyWorld NewMember "13900139000" "" "" "" "").w.ext.rows =
      readOnlyWorld.ext.rows ∧
    (∀ r ∈ (CreateMember tableExt readOnlyWorld NewMember
        "13900139000" "" "" "" "").w.ext.rows, r.ID ≠ "id-new") ∧
    (CreateMember tableExt readOnlyWorld NewMember "13900139000" "" "" "" "").m.ID = "id-new" ∧
    (CreateMember tableExt readOnlyWorld NewMember "13900139000" "" "" "" "").err = none ∧
    dispatchCount
      (CreateMember tableExt readOnlyWorld NewMember "13900139000" "" "" "" "").w.trace = 1 ∧
    (AddNewMember tableExt readOnlyWorld "13900139000" "" "" "" "").ret =
      some { ID := "id-new", CardNo := ⟨"1002", true⟩, Phone := ⟨"13900139000", true⟩,
             Level := ⟨"", false⟩, CreateTime := 100, Reference := ⟨"", false⟩,
             Name := ⟨"", false⟩ } := by
  decide

/-- C5 at a failing input. On the sample store the token "13800138000" resolves to `alice`;
`AddNewMember` with empty level and name then returns (and hands to `Create`) a record
whose `Level` and `Name` are those of `alice`. With no reference token the same call
leaves `Level` and `Name` unset. -/
theorem AddNewMember_keeps_referrer_fields :
    (AddNewMember tableExt sampleWorld "13900139000" "" "13800138000" "" "").ret =
      some { ID := "id-new", CardNo := ⟨"1002", true⟩, Phone := ⟨"13900139000", true⟩,
             Level := ⟨"gold", true⟩, CreateTime := 100, Reference := ⟨"id-alice", true⟩,
             Name := ⟨"Alice", true⟩ } ∧
    Event.Create { ID := "id-new", CardNo := ⟨"1002", true⟩, Phone := ⟨"13900139000", true⟩,
                   Level := ⟨"gold", true⟩, CreateTime := 100,
                   Reference := ⟨"id-alice", true⟩, Name := ⟨"Alice", true⟩ } ∈
      (AddNewMember tableExt sampleWorld "13900139000" "" "13800138000" "" "").w.trace ∧
    (AddNewMember tableExt sampleWorld "13900139000" "" "" "" "").ret =
      some { ID := "id-new", CardNo := ⟨"1002", true⟩, Phone := ⟨"13900139000", true⟩,
             Level := ⟨"", false⟩, CreateTime := 100, Reference := ⟨"", false⟩,
             Name := ⟨"", false⟩ } := by
  decide

end Model
